import Mathlib

/-!
Verification of the odds-scraper client (src/oddsview.py).

The program discovers live games over HTTP, derives subscription channel
names from each game's markets and outcomes, and fans out one websocket
subscription task per derived channel plus a global sportsbook filter.
This file gives a shallow embedding of that program: Python dicts of known
shape become structures, dict iteration order becomes association-list
order, raised exceptions become Except/Option results, and the websocket
receive loop becomes a function over a finite trace of inbound events.
-/

namespace OddsScraper

/-- The CHANNEL_TITLES module-level dict (lines 8-11): a fixed mapping
from recognized market type to the list of channel title strings, in
declared order. -/
def CHANNEL_TITLES : List (String × List String) :=
  [("MONEYLINE", ["best_ml", "moneyline"]),
   ("SPREAD", ["best_ms", "spread"])]

/-- An outcome record. get_game_channels iterates outcome ids and never
inspects the outcome's value, so the value is modelled as a unit. -/
abbrev Outcome := Unit

/-- A market dict: its market_type string and its outcomes dict
(outcome_id to outcome, in iteration order). -/
structure Market where
  market_type : String
  outcomes : List (String × Outcome)
deriving DecidableEq

/-- A live-game dict as get_game_channels reads it: its game_id and its
markets dict (market_id to market, in iteration order). -/
structure Game where
  game_id : String
  markets : List (String × Market)
deriving DecidableEq

/-- Channel strings contributed by one market (lines 116-119): if the
market_type is a key of CHANNEL_TITLES, one string per (outcome, title)
pair with the outcome loop outer and the title loop inner; otherwise
none. -/
def marketChannels (market : Market) : List String :=
  match CHANNEL_TITLES.lookup market.market_type with
  | some titles =>
      market.outcomes.flatMap (fun oc => titles.map (fun t => t ++ "." ++ oc.1))
  | none => []

/-- All channel strings collected for one game: markets iterated in
catalog order, each contributing marketChannels. -/
def gameChannels (g : Game) : List String :=
  g.markets.flatMap (fun m => marketChannels m.2)

/-- The per-game record built by get_game_channels (lines 110-122):
game_id plus the list of derived channel strings. -/
structure GameChannels where
  game_id : String
  channels : List String
deriving DecidableEq

/-- OddsView.get_game_channels (lines 99-122): one GameChannels record
per live game, in catalog order. -/
def get_game_channels (live_games : List Game) : List GameChannels :=
  live_games.map (fun g => ⟨g.game_id, gameChannels g⟩)

/-- An outbound subscription message, before json.dumps serialization:
either the global sportsbook filter message or a channel subscribe
message (lines 138, 146, 153). -/
inductive SubMsg where
  | filter (filtered_sportsbooks : List String)
  | subscribe (channel : String)
deriving DecidableEq

/-- The global sportsbook filter message sent by the first task
(line 138). -/
def filterMsg : SubMsg := SubMsg.filter ["PINNY"]

/-- The game-state subscription message for a game (line 146). -/
def gameStateMsg (game_id : String) : SubMsg :=
  SubMsg.subscribe ("game_state." ++ game_id)

/-- The non-filter tasks launched by live_odds_stream (lines 141-155):
for each game record, a game_state subscription followed by one
subscription per derived channel, in order. -/
def deriveTasks (live_games : List Game) : List SubMsg :=
  (get_game_channels live_games).flatMap
    (fun g => gameStateMsg g.game_id :: g.channels.map SubMsg.subscribe)

/-- The full ordered list of subscription messages for the tasks that
live_odds_stream launches (lines 135-155): the global filter task first,
then the per-game tasks. One concurrent runner is launched per entry. -/
def liveOddsStreamTasks (live_games : List Game) : List SubMsg :=
  filterMsg :: deriveTasks live_games

/-- A JSON value, the result of json.loads / requests .json(): null,
booleans, numbers (modelled as integers), strings, arrays, and objects
as ordered field lists. -/
inductive JValue where
  | null
  | bool (b : Bool)
  | num (n : Int)
  | str (s : String)
  | arr (elems : List JValue)
  | obj (fields : List (String × JValue))

/-- Python subscription indexing v[key]: a value on an object with the
key present, otherwise an exception (KeyError on a dict without the key,
TypeError on a non-dict), modelled as none. -/
def jLookup (v : JValue) (key : String) : Option JValue :=
  match v with
  | JValue.obj fields => fields.lookup key
  | _ => none

/-- The json.dumps image of a subscription message (lines 138, 146,
153), with field order following the Python dict literals. -/
def msgToJson (m : SubMsg) : JValue :=
  match m with
  | SubMsg.filter books =>
      JValue.obj [("filtered_sportsbooks", JValue.arr (books.map JValue.str)),
                  ("action", JValue.str "filter")]
  | SubMsg.subscribe c =>
      JValue.obj [("channel", JValue.str c), ("action", JValue.str "subscribe")]

/-- One transport-level event observed by the receive loop of stream:
either an inbound frame, carried as the result of json.loads on the wire
string (none when the string is not valid JSON), or a
websockets.WebSocketException raised by ws.recv — which covers both a
broken transport and a closed connection. -/
inductive Event where
  | frame (decoded : Option JValue)
  | transportError

/-- Processing of one received frame (lines 37-39): json.loads, then
indexing by "channel" and then "payload". The result is the pair printed
on success, and none when any of the three steps raises. -/
def processFrame (decoded : Option JValue) : Option (JValue × JValue) :=
  match decoded with
  | none => none
  | some v =>
      match jLookup v "channel", jLookup v "payload" with
      | some channel, some payload => some (channel, payload)
      | _, _ => none

/-- What the receive loop (lines 34-49) produces over a trace of events:
the (channel, payload) pairs printed, the number of reported errors
(each printed with a trace), and whether the loop exited via break on a
WebSocketException. A frame that fails processing is reported and the
loop continues; a transport error is reported, breaks the loop, and the
rest of the trace is never received. -/
structure LoopResult where
  emitted : List (JValue × JValue)
  reported : Nat
  stoppedByTransport : Bool

/-- The receive loop of stream (lines 34-49) over a finite event
trace. -/
def streamLoop : List Event → LoopResult
  | [] => ⟨[], 0, false⟩
  | Event.transportError :: _ => ⟨[], 1, true⟩
  | Event.frame d :: rest =>
      let r := streamLoop rest
      match processFrame d with
      | some cp => ⟨cp :: r.emitted, r.reported, r.stoppedByTransport⟩
      | none => ⟨r.emitted, r.reported + 1, r.stoppedByTransport⟩

/-- The observable outcome of one stream task (lines 13-54): what it
printed, whether ws.close was awaited before exit, and whether an
exception escaped to the caller — the outer try/except prints every
exception, so nothing ever escapes. -/
structure StreamResult where
  emitted : List (JValue × JValue)
  connectionClosed : Bool
  raisedToCaller : Bool

/-- The stream task (lines 13-54): when the connection attempt succeeds
the receive loop runs over the trace, and ws.close on line 51 is reached
exactly when the loop exited via break; when websockets.connect itself
raises, the outer except reports and the task returns at once. In both
cases the task returns normally. -/
def stream (connectOk : Bool) (events : List Event) : StreamResult :=
  if connectOk then
    let r := streamLoop events
    ⟨r.emitted, r.stoppedByTransport, false⟩
  else ⟨[], false, false⟩

/-- Two stream tasks run concurrently by the orchestrator: they share no
state, so the pair of outcomes is the pair of the individual
outcomes. -/
def runPair (events1 events2 : List Event) : StreamResult × StreamResult :=
  (stream true events1, stream true events2)

/-- The params dict built by get_live_games (lines 82-86): Python
truthiness makes a None or empty-string argument contribute no entry,
and insertion order is sport then live. -/
def buildParams (sport live : Option String) : List (String × String) :=
  (match sport with
   | some s => if s = "" then [] else [("sport", s)]
   | none => []) ++
  (match live with
   | some l => if l = "" then [] else [("live", l)]
   | none => [])

/-- The body.live_games path of a parsed response, or none when the
path is absent. -/
def bodyLiveGames (resp : JValue) : Option JValue :=
  (jLookup resp "body").bind (fun b => jLookup b "live_games")

/-- OddsView.get_live_games (lines 67-89): builds the query params,
obtains the parsed JSON response from the endpoint (modelled as the
function respond from query params to parsed body), and returns
response body live_games; a missing step of that path raises (KeyError
or TypeError), modelled as an error naming the failed key. -/
def get_live_games (sport live : Option String)
    (respond : List (String × String) → JValue) : Except String JValue :=
  let response := respond (buildParams sport live)
  match jLookup response "body" with
  | none => Except.error "body"
  | some b =>
      match jLookup b "live_games" with
      | none => Except.error "live_games"
      | some lg => Except.ok lg

/-- OddsView.live_odds_stream (lines 124-157), abstracted over the
outcome of the catalog fetch: a fetch error propagates out of the
coroutine before any task is created; a fetched catalog yields the
ordered task list, one concurrent stream task per entry. -/
def live_odds_stream (fetched : Except String (List Game)) :
    Except String (List SubMsg) :=
  match fetched with
  | Except.error e => Except.error e
  | Except.ok live_games => Except.ok (liveOddsStreamTasks live_games)

/-- Task list in the grouped order that the specification's section 4.4
words describe, for refinement comparison with liveOddsStreamTasks: the
global filter first, then every game-state task, then every
market-channel task. -/
def specTaskList (live_games : List Game) : List SubMsg :=
  filterMsg ::
    ((get_game_channels live_games).map (fun g => gameStateMsg g.game_id) ++
     (get_game_channels live_games).flatMap (fun g => g.channels.map SubMsg.subscribe))

/-- Helper: the per-game shape of the non-filter task list — one
game-state message per game, followed by that game's channel
subscriptions. -/
lemma deriveTasks_eq (live_games : List Game) :
    deriveTasks live_games =
      live_games.flatMap
        (fun g => gameStateMsg g.game_id :: (gameChannels g).map SubMsg.subscribe) := by
  induction live_games with
  | nil => rfl
  | cons g gs ih =>
      simp only [deriveTasks, get_game_channels, List.map_cons, List.flatMap_cons] at *
      simp [ih]

/-- Helper: a game none of whose markets has a recognized market_type
derives no channel strings. -/
lemma gameChannels_eq_nil (g : Game)
    (h : ∀ m ∈ g.markets, CHANNEL_TITLES.lookup m.2.market_type = none) :
    gameChannels g = [] := by
  simp only [gameChannels, List.flatMap_eq_nil_iff]
  intro m hm
  simp [marketChannels, h m hm]

/-- C1: a game with a single MONEYLINE market whose outcomes iterate in
the order o1, o2 derives exactly the channel strings best_ml.o1,
moneyline.o1, best_ml.o2, moneyline.o2 in that order: the outcome loop
is outer and the title loop, in declared order, is inner. -/
theorem moneyline_channels_outcome_major (gid mid o1 o2 : String) (v1 v2 : Outcome) :
    get_game_channels [⟨gid, [(mid, ⟨"MONEYLINE", [(o1, v1), (o2, v2)]⟩)]⟩] =
      [⟨gid, ["best_ml." ++ o1, "moneyline." ++ o1,
              "best_ml." ++ o2, "moneyline." ++ o2]⟩] := by
  simp [get_game_channels, gameChannels, marketChannels, CHANNEL_TITLES, List.lookup]

/-- C2: for the catalog holding the single game g1 with one SPREAD
market over the single outcome o1, the orchestrator launches exactly
four tasks whose subscription messages are, in order: the global
filter, game_state.g1, best_ms.o1, spread.o1. -/
theorem single_spread_game_four_tasks :
    liveOddsStreamTasks [⟨"g1", [("m1", ⟨"SPREAD", [("o1", ())]⟩)]⟩] =
      [SubMsg.filter ["PINNY"], SubMsg.subscribe "game_state.g1",
       SubMsg.subscribe "best_ms.o1", SubMsg.subscribe "spread.o1"] ∧
    (liveOddsStreamTasks [⟨"g1", [("m1", ⟨"SPREAD", [("o1", ())]⟩)]⟩]).length = 4 := by
  constructor <;> rfl

/-- C5: a market whose market_type is neither MONEYLINE nor SPREAD
contributes zero channel strings, whatever its outcomes: its own
channel list is empty, and removing it from any position in a game's
market dict leaves the game's derived channels unchanged. -/
theorem unrecognized_market_contributes_nothing (mt : String)
    (outs : List (String × Outcome))
    (h1 : mt ≠ "MONEYLINE") (h2 : mt ≠ "SPREAD") :
    marketChannels ⟨mt, outs⟩ = [] ∧
    ∀ (gid mid : String) (pre post : List (String × Market)),
      gameChannels ⟨gid, pre ++ (mid, ⟨mt, outs⟩) :: post⟩ =
        gameChannels ⟨gid, pre ++ post⟩ := by
  have hl : CHANNEL_TITLES.lookup mt = none := by
    simp only [CHANNEL_TITLES, List.lookup,
      beq_eq_false_iff_ne.mpr h1, beq_eq_false_iff_ne.mpr h2]
  have hmc : marketChannels ⟨mt, outs⟩ = [] := by
    simp [marketChannels, hl]
  refine ⟨hmc, ?_⟩
  intro gid mid pre post
  simp [gameChannels, hmc]

/-- C5 witness: the theorem applied to market type TOTAL with one
outcome. -/
theorem unrecognized_market_witness :
    ("TOTAL" : String) ≠ "MONEYLINE" ∧ ("TOTAL" : String) ≠ "SPREAD" ∧
    marketChannels ⟨"TOTAL", [("o1", ())]⟩ = [] :=
  ⟨by decide, by decide,
   (unrecognized_market_contributes_nothing "TOTAL" [("o1", ())]
      (by decide) (by decide)).1⟩

/-- C10: when the fetched catalog is empty the orchestrator launches
exactly one task, the global sportsbook filter, whose serialized
message is the filter dict with sportsbooks PINNY — and no game-state
or market-channel task. -/
theorem empty_catalog_single_filter_task :
    live_odds_stream (Except.ok ([] : List Game)) = Except.ok [filterMsg] ∧
    filterMsg = SubMsg.filter ["PINNY"] ∧
    msgToJson filterMsg =
      JValue.obj [("filtered_sportsbooks", JValue.arr [JValue.str "PINNY"]),
                  ("action", JValue.str "filter")] :=
  ⟨rfl, rfl, rfl⟩

/-- C3: channel derivation emits exactly one game_state task per game,
with identifier game_state followed by the game_id, whatever market
types the game has; and on a catalog none of whose markets has a
recognized market_type the derived task list is exactly the N
game-state tasks, with no market-channel task. -/
theorem one_game_state_task_per_game (live_games : List Game) :
    deriveTasks live_games =
      live_games.flatMap
        (fun g => gameStateMsg g.game_id :: (gameChannels g).map SubMsg.subscribe) ∧
    ((∀ g ∈ live_games, ∀ m ∈ g.markets,
        CHANNEL_TITLES.lookup m.2.market_type = none) →
      deriveTasks live_games = live_games.map (fun g => gameStateMsg g.game_id)) := by
  refine ⟨deriveTasks_eq live_games, ?_⟩
  intro h
  rw [deriveTasks_eq live_games]
  induction live_games with
  | nil => rfl
  | cons g gs ih =>
      rw [List.flatMap_cons, List.map_cons,
        gameChannels_eq_nil g (h g (by simp)),
        ih (fun x hx m hm => h x (by simp [hx]) m hm)]
      rfl

/-- C3 witness: the theorem applied to a two-game catalog whose only
market has the unrecognized type TOTAL. -/
theorem one_game_state_task_witness :
    (∀ g ∈ ([⟨"g1", [("m1", ⟨"TOTAL", [("o1", ())]⟩)]⟩, ⟨"g2", []⟩] : List Game),
      ∀ m ∈ g.markets, CHANNEL_TITLES.lookup m.2.market_type = none) ∧
    deriveTasks [⟨"g1", [("m1", ⟨"TOTAL", [("o1", ())]⟩)]⟩, ⟨"g2", []⟩] =
      [gameStateMsg "g1", gameStateMsg "g2"] :=
  ⟨by decide,
   (one_game_state_task_per_game
      [⟨"g1", [("m1", ⟨"TOTAL", [("o1", ())]⟩)]⟩, ⟨"g2", []⟩]).2 (by decide)⟩

/-- C4 counterexample: on a two-game catalog whose first game has a
SPREAD market, the task list the orchestrator builds differs from the
grouped order claimed (all game-state tasks before all market-channel
tasks) — the code emits g1's market channels before g2's game-state
task. -/
theorem task_order_counterexample :
    liveOddsStreamTasks [⟨"g1", [("m1", ⟨"SPREAD", [("o1", ())]⟩)]⟩, ⟨"g2", []⟩] ≠
      specTaskList [⟨"g1", [("m1", ⟨"SPREAD", [("o1", ())]⟩)]⟩, ⟨"g2", []⟩] := by
  decide

/-- C4 amended: the full task list is the global filter task followed,
for each game in catalog order, by that game's game-state task and then
that game's market-channel tasks — game-state and market-channel tasks
interleave per game rather than forming two separate blocks; one
concurrent runner is launched per entry. -/
theorem task_list_interleaved_per_game (live_games : List Game) :
    liveOddsStreamTasks live_games =
      filterMsg :: live_games.flatMap
        (fun g => gameStateMsg g.game_id :: (gameChannels g).map SubMsg.subscribe) := by
  rw [liveOddsStreamTasks, deriveTasks_eq]

/-- C6: a frame whose decoding or processing fails is reported and the
receive loop carries on exactly as it would without that frame: the
emitted updates, including any from a subsequent valid frame, and the
way the loop terminates are unchanged; the bad frame alone never stops
the task. -/
theorem bad_frame_reported_loop_continues (bad : Option JValue) (rest : List Event)
    (h : processFrame bad = none) :
    streamLoop (Event.frame bad :: rest) =
      ⟨(streamLoop rest).emitted, (streamLoop rest).reported + 1,
       (streamLoop rest).stoppedByTransport⟩ := by
  simp [streamLoop, h]

/-- C6 witness: a frame missing the channel key is reported and the
following valid frame is still emitted. -/
theorem bad_frame_witness :
    processFrame (some (JValue.obj [("payload", JValue.null)])) = none ∧
    streamLoop [Event.frame (some (JValue.obj [("payload", JValue.null)])),
        Event.frame (some (JValue.obj [("channel", JValue.str "c"),
                                       ("payload", JValue.num 1)]))] =
      ⟨[(JValue.str "c", JValue.num 1)], 1, false⟩ := by
  refine ⟨rfl, ?_⟩
  rw [bad_frame_reported_loop_continues (some (JValue.obj [("payload", JValue.null)]))
      [Event.frame (some (JValue.obj [("channel", JValue.str "c"),
                                      ("payload", JValue.num 1)]))] rfl]
  rfl

/-- C7: when the receive loop hits a transport error or connection
closure it stops — later events on the trace are never received — the
connection is closed before the task exits, no exception reaches the
caller, and a concurrently running task's outcome is independent of
this one's trace. -/
theorem transport_error_terminates_task (events : List Event)
    (h : (streamLoop events).stoppedByTransport = true) :
    stream true events = ⟨(streamLoop events).emitted, true, false⟩ ∧
    (∀ pre post : List Event,
      streamLoop (pre ++ Event.transportError :: post) =
        streamLoop (pre ++ [Event.transportError])) ∧
    (∀ events1 events1' events2 : List Event,
      (runPair events1 events2).2 = (runPair events1' events2).2) := by
  refine ⟨by simp [stream, h], ?_, fun _ _ _ => rfl⟩
  intro pre post
  induction pre with
  | nil => rfl
  | cons e pre ih =>
      cases e with
      | transportError => rfl
      | frame d =>
          rw [List.cons_append, List.cons_append]
          cases hd : processFrame d <;> simp [streamLoop, hd, ih]

/-- C7 witness: a connection that closes cleanly after zero inbound
frames — the task closes the connection and returns without raising. -/
theorem transport_error_witness :
    (streamLoop [Event.transportError]).stoppedByTransport = true ∧
    stream true [Event.transportError] = ⟨[], true, false⟩ :=
  ⟨rfl, (transport_error_terminates_task [Event.transportError] rfl).1⟩

/-- C8: when the parsed response lacks the body live_games path,
get_live_games fails with an error, the orchestrator propagates that
error, and a propagated fetch error never yields a task list — zero
subscription tasks are launched. -/
theorem fetch_failure_launches_no_tasks (sport live : Option String)
    (respond : List (String × String) → JValue)
    (h : bodyLiveGames (respond (buildParams sport live)) = none) :
    (∃ e, get_live_games sport live respond = Except.error e ∧
          live_odds_stream (Except.error e) = Except.error e) ∧
    ∀ (e : String) (tasks : List SubMsg),
      live_odds_stream (Except.error e) ≠ Except.ok tasks := by
  constructor
  · cases hb : jLookup (respond (buildParams sport live)) "body" with
    | none => exact ⟨"body", by simp [get_live_games, hb], rfl⟩
    | some b =>
        have hlg : jLookup b "live_games" = none := by
          rw [bodyLiveGames, hb] at h
          exact h
        exact ⟨"live_games", by simp [get_live_games, hb, hlg], rfl⟩
  · intro e tasks hcontra
    exact Except.noConfusion hcontra

/-- C8 witness: a response that is an empty JSON object. -/
theorem fetch_failure_witness :
    bodyLiveGames ((fun _ => JValue.obj []) (buildParams none none)) = none ∧
    ∃ e, get_live_games none none (fun _ => JValue.obj []) = Except.error e ∧
         live_odds_stream (Except.error e) = Except.error e :=
  ⟨rfl, (fetch_failure_launches_no_tasks none none (fun _ => JValue.obj []) rfl).1⟩

/-- C9: the query params dict contains the key sport exactly when the
sport argument is provided and non-empty (and then maps it to that
value), likewise for live; and whenever the parsed response has the
body live_games path, get_live_games returns exactly the value found
there. -/
theorem get_live_games_params_and_result (sport live : Option String) :
    (buildParams sport live).lookup "sport" =
      sport.bind (fun s => if s = "" then none else some s) ∧
    (buildParams sport live).lookup "live" =
      live.bind (fun l => if l = "" then none else some l) ∧
    ∀ (respond : List (String × String) → JValue) (lg : JValue),
      bodyLiveGames (respond (buildParams sport live)) = some lg →
      get_live_games sport live respond = Except.ok lg := by
  refine ⟨?_, ?_, ?_⟩
  · cases sport <;> cases live <;>
      simp [buildParams, List.lookup] <;> split_ifs <;> simp [List.lookup]
  · cases sport <;> cases live <;>
      simp [buildParams, List.lookup] <;> split_ifs <;> simp [List.lookup]
  · intro respond lg h
    cases hb : jLookup (respond (buildParams sport live)) "body" with
    | none => rw [bodyLiveGames, hb] at h; exact Option.noConfusion h
    | some b =>
        have hlg : jLookup b "live_games" = some lg := by
          rw [bodyLiveGames, hb] at h
          exact h
        simp [get_live_games, hb, hlg]

/-- C9 witness: sport provided as basketball, live provided empty, and
a response carrying an empty live_games array. -/
theorem get_live_games_witness :
    (buildParams (some "basketball") (some "")).lookup "sport" = some "basketball" ∧
    (buildParams (some "basketball") (some "")).lookup "live" = none ∧
    get_live_games (some "basketball") (some "")
        (fun _ => JValue.obj [("body", JValue.obj [("live_games", JValue.arr [])])]) =
      Except.ok (JValue.arr []) :=
  ⟨(get_live_games_params_and_result (some "basketball") (some "")).1,
   (get_live_games_params_and_result (some "basketball") (some "")).2.1,
   (get_live_games_params_and_result (some "basketball") (some "")).2.2
     (fun _ => JValue.obj [("body", JValue.obj [("live_games", JValue.arr [])])])
     (JValue.arr []) rfl⟩

end OddsScraper
